import Mathlib

/-!
# Verification of Istio's tracing-configuration resolution
(`pilot/pkg/networking/core/v1alpha3/tracing.go`)

A shallow embedding of the tracing-configuration resolution engine:
`configureTracingFromSpec` and its helpers (`configureFromProviderConfig`,
`buildHCMTracing`, `buildHCMTracingOpenCensus`, `convert`,
`configureSampling`, `fallbackSamplingValue`, `getPilotRandomSamplingEnv`,
`configureCustomTags`, `buildCustomTagsFromProvider`,
`buildCustomTagsFromProxyConfig`, `defaultTags`).

Modelling conventions:
- Go `float64` sampling percentages are modelled as `ℚ`: the code only
  copies and compares these values (no arithmetic), so rationals simulate
  the float behaviour exactly on the comparisons performed.
- Go maps (`map[string]*CustomTag`, with unique keys) are modelled as
  association lists `List (String × _)`; the list order models the
  map's (arbitrary) iteration order, and determinism properties are
  stated by quantifying over permutations of the list.
- Fallible Go functions returning `(T, error)` whose caller discards the
  `T` on error are modelled as `Option T` (the error message text is
  dropped; only success/failure is observable to the orchestrator).
- The process-wide globals `features.TraceSampling`,
  `features.EnableIstioTags` and `pilotTraceSamplingEnv`, and the
  swappable collaborator `clusterLookupFn`, are passed as explicit
  parameters.
- Go's unstable `sort.Slice` over the comparator `tags[i].Tag < tags[j].Tag`
  is modelled with `List.insertionSort` over `tag ≤ tag`; any correct
  sorting algorithm produces a permutation of the input sorted
  non-decreasingly by tag name, which is all the theorems below rely on.
-/

namespace IstioTracing

/-- Output trace-context enum `tracingcfg.OpenCensusConfig_TraceContext`. -/
inductive OCTraceContext where
  | b3
  | cloudTraceContext
  | grpcTraceBin
  | traceContext
deriving DecidableEq, Repr

/-- Mesh-config trace-context enum
`meshconfig.MeshConfig_ExtensionProvider_OpenCensusAgentTracingProvider_TraceContext`. -/
inductive MeshTraceContext where
  | b3
  | cloudTraceContext
  | grpcBin
  | w3cTraceContext
deriving DecidableEq, Repr

/-- Tag-source oneof of the telemetry API's `telemetrypb.Tracing_CustomTag`
(variants `Environment`, `Header`, `Literal`; per the data-model invariant
exactly one variant is populated). -/
inductive TelemetryTagType where
  | environment (name defaultValue : String)
  | header (name defaultValue : String)
  | literal (value : String)
deriving DecidableEq, Repr

/-- Tag-source oneof of the legacy proxy config's `meshconfig.Tracing_CustomTag`
(variants `Environment`, `Header`, `Literal`). -/
inductive MeshTagType where
  | environment (name defaultValue : String)
  | header (name defaultValue : String)
  | literal (value : String)
deriving DecidableEq, Repr

/-- Tag-source oneof of the output `tracing.CustomTag`
(variants `Environment`, `RequestHeader`, `Literal`). -/
inductive CustomTagType where
  | environment (name defaultValue : String)
  | requestHeader (name defaultValue : String)
  | literal (value : String)
deriving DecidableEq, Repr

/-- Output `tracing.CustomTag`: a tag name plus its source descriptor. -/
structure CustomTag where
  tag : String
  type : CustomTagType
deriving DecidableEq, Repr

/-- Legacy `meshconfig.Tracing` inside `meshconfig.ProxyConfig`
(fields used by this core: `Sampling`, `MaxPathTagLength`, `CustomTags`).
The custom-tag map is an association list, see the modelling conventions. -/
structure ProxyTracing where
  sampling : ℚ := 0
  maxPathTagLength : Nat := 0
  customTags : List (String × MeshTagType) := []
deriving DecidableEq, Repr

/-- `meshconfig.ProxyConfig` (field used: `Tracing`, a nilable message). -/
structure ProxyConfig where
  tracing : Option ProxyTracing := none
deriving DecidableEq, Repr

/-- `proxyCfg.GetTracing().GetSampling()`-style nil-safe accessor. -/
def ProxyConfig.getSampling (c : ProxyConfig) : ℚ :=
  match c.tracing with
  | none => 0
  | some t => t.sampling

/-- `proxyCfg.GetTracing().GetMaxPathTagLength()` nil-safe accessor. -/
def ProxyConfig.getMaxPathTagLength (c : ProxyConfig) : Nat :=
  match c.tracing with
  | none => 0
  | some t => t.maxPathTagLength

/-- `proxyCfg.GetTracing().GetCustomTags()` nil-safe accessor. -/
def ProxyConfig.getCustomTags (c : ProxyConfig) : List (String × MeshTagType) :=
  match c.tracing with
  | none => []
  | some t => t.customTags

/-- `getPilotRandomSamplingEnv`: the process-wide default sampling
percentage `features.TraceSampling`, forced to 1.0 when outside [0,100]. -/
def getPilotRandomSamplingEnv (traceSampling : ℚ) : ℚ :=
  if traceSampling < 0 ∨ traceSampling > 100 then 1 else traceSampling

/-- `fallbackSamplingValue`: legacy sampling chain. Starts from the
process-wide default `pilotTraceSamplingEnv` (passed explicitly); when the
proxy config's `Tracing` is non-nil and its `Sampling` is nonzero, that
value overrides, forced to 1.0 when greater than 100. -/
def fallbackSamplingValue (pilotTraceSamplingEnv : ℚ) (config : ProxyConfig) : ℚ :=
  match config.tracing with
  | none => pilotTraceSamplingEnv
  | some t =>
    if t.sampling ≠ 0 then
      if t.sampling > 100 then 1 else t.sampling
    else pilotTraceSamplingEnv

/-- Typed provider payloads. In Go each builder marshals a backend-specific
proto into an `anypb.Any`; the `Any` is modelled as this closed union of the
payloads this file can produce. -/
inductive ZipkinEndpointVersion where
  | httpJson
deriving DecidableEq, Repr

/-- `tracingcfg.ZipkinConfig` fields set by `zipkinConfigGen`. -/
structure ZipkinConfig where
  collectorCluster : String
  collectorEndpoint : String
  collectorEndpointVersion : ZipkinEndpointVersion
  traceId128bit : Bool
  sharedSpanContext : Bool
deriving DecidableEq, Repr

/-- `tracingcfg.DatadogConfig` fields set by `datadogConfigGen`. -/
structure DatadogConfig where
  collectorCluster : String
deriving DecidableEq, Repr

/-- `tracingcfg.LightstepConfig` fields set by the Lightstep closure. -/
structure LightstepConfig where
  collectorCluster : String
  accessTokenFile : String
deriving DecidableEq, Repr

/-- `opb.TraceConfig` span limits used by the Stackdriver builder. -/
structure TraceConfig where
  maxNumberOfAnnotations : Int
  maxNumberOfAttributes : Int
  maxNumberOfMessageEvents : Int
deriving DecidableEq, Repr

/-- The STS call-credential block of the Stackdriver gRPC service
(`GrpcService_GoogleGrpc_CallCredentials_StsService`). -/
structure StsService where
  tokenExchangeServiceUri : String
  subjectTokenPath : String
  subjectTokenType : String
  scope : String
deriving DecidableEq, Repr

/-- The `envoy_config_core_v3.GrpcService` wired by the Stackdriver builder
when an STS port is configured. Constant sub-fields that carry no
information (SSL channel credentials message, stat-name constant) are kept
only through the fields below. -/
structure GrpcService where
  initialMetadataUserProject : String
  targetUri : String
  stsService : StsService
deriving DecidableEq, Repr

/-- `tracingcfg.OpenCensusConfig` fields set by the OpenCensus and
Stackdriver builders. -/
structure OpenCensusConfig where
  ocagentAddress : String := ""
  ocagentExporterEnabled : Bool := false
  incomingTraceContext : List OCTraceContext := []
  outgoingTraceContext : List OCTraceContext := []
  stackdriverExporterEnabled : Bool := false
  stackdriverProjectId : String := ""
  stdoutExporterEnabled : Bool := false
  traceConfig : Option TraceConfig := none
  stackdriverGrpcService : Option GrpcService := none
deriving DecidableEq, Repr

/-- The `anypb.Any` payload produced by a backend builder. -/
inductive TypedConfig where
  | zipkin (cfg : ZipkinConfig)
  | datadog (cfg : DatadogConfig)
  | lightstep (cfg : LightstepConfig)
  | openCensus (cfg : OpenCensusConfig)
deriving DecidableEq, Repr

/-- `tracingcfg.Tracing_Http`: the provider block of the tracing config. -/
structure TracingHttp where
  name : String
  typedConfig : TypedConfig
deriving DecidableEq, Repr

/-- `hpb.HttpConnectionManager_Tracing` (fields this core writes). `Option`
fields model nilable proto messages (`none` = field left unset). -/
structure HCMTracing where
  clientSampling : Option ℚ := none
  overallSampling : Option ℚ := none
  randomSampling : Option ℚ := none
  customTags : List CustomTag := []
  maxPathTagLength : Option Nat := none
  provider : Option TracingHttp := none
deriving DecidableEq, Repr

/-- `configureSampling`: always pins client and overall sampling to 100;
a nonzero provider percentage is used verbatim for random sampling,
zero falls back to `fallbackSamplingValue`. -/
def configureSampling (hcmTracing : HCMTracing) (providerPercentage : ℚ)
    (pilotTraceSamplingEnv : ℚ) (proxyCfg : ProxyConfig) : HCMTracing :=
  let t := { hcmTracing with clientSampling := some 100, overallSampling := some 100 }
  if providerPercentage ≠ 0 then
    { t with randomSampling := some providerPercentage }
  else
    { t with randomSampling := some (fallbackSamplingValue pilotTraceSamplingEnv proxyCfg) }

/-- `defaultTags`: the four built-in environment-sourced tags. -/
def defaultTags : List CustomTag :=
  [ { tag := "istio.canonical_revision",
      type := .environment "CANONICAL_REVISION" "latest" },
    { tag := "istio.canonical_service",
      type := .environment "CANONICAL_SERVICE" "unknown" },
    { tag := "istio.mesh_id",
      type := .environment "ISTIO_META_MESH_ID" "unknown" },
    { tag := "istio.namespace",
      type := .environment "POD_NAMESPACE" "default" } ]

/-- `buildCustomTagsFromProvider`: converts each telemetry-API tag entry
(in map-iteration order, modelled by the list order) to an output tag. -/
def buildCustomTagsFromProvider : List (String × TelemetryTagType) → List CustomTag
  | [] => []
  | (tagName, tagInfo) :: rest =>
    (match tagInfo with
     | .environment n d => { tag := tagName, type := .environment n d }
     | .header n d => { tag := tagName, type := .requestHeader n d }
     | .literal v => { tag := tagName, type := .literal v })
    :: buildCustomTagsFromProvider rest

/-- `buildCustomTagsFromProxyConfig`: converts each legacy proxy-config tag
entry (in map-iteration order, modelled by the list order) to an output tag. -/
def buildCustomTagsFromProxyConfig : List (String × MeshTagType) → List CustomTag
  | [] => []
  | (tagName, tagInfo) :: rest =>
    (match tagInfo with
     | .environment n d => { tag := tagName, type := .environment n d }
     | .header n d => { tag := tagName, type := .requestHeader n d }
     | .literal v => { tag := tagName, type := .literal v })
    :: buildCustomTagsFromProxyConfig rest

/-- Lexicographic strict comparison of character lists: the model of Go's
`<` on the (ASCII) tag-name strings used by the sort comparator. -/
def charsLT : List Char → List Char → Bool
  | [], [] => false
  | [], _ :: _ => true
  | _ :: _, [] => false
  | a :: as, b :: bs => if a < b then true else if b < a then false else charsLT as bs

/-- Lexicographic less-or-equal companion of `charsLT`. -/
def charsLE : List Char → List Char → Bool
  | [], _ => true
  | _ :: _, [] => false
  | a :: as, b :: bs => if a < b then true else if b < a then false else charsLE as bs

theorem charsLE_cons_iff (a b : Char) (as bs : List Char) :
    charsLE (a :: as) (b :: bs) = true ↔ (a < b ∨ (a = b ∧ charsLE as bs = true)) := by
  rcases lt_trichotomy a b with h | h | h
  · simp [charsLE, h, ne_of_lt h]
  · simp [charsLE, h, lt_irrefl]
  · simp [charsLE, not_lt_of_lt h, h, (ne_of_lt h).symm]

theorem charsLT_cons_iff (a b : Char) (as bs : List Char) :
    charsLT (a :: as) (b :: bs) = true ↔ (a < b ∨ (a = b ∧ charsLT as bs = true)) := by
  rcases lt_trichotomy a b with h | h | h
  · simp [charsLT, h, ne_of_lt h]
  · simp [charsLT, h, lt_irrefl]
  · simp [charsLT, not_lt_of_lt h, h, (ne_of_lt h).symm]

theorem charsLE_total : ∀ x y : List Char, charsLE x y = true ∨ charsLE y x = true
  | [], _ => Or.inl rfl
  | _ :: _, [] => Or.inr rfl
  | a :: as, b :: bs => by
    rcases lt_trichotomy a b with h | h | h
    · exact Or.inl ((charsLE_cons_iff a b as bs).mpr (Or.inl h))
    · rcases charsLE_total as bs with ih | ih
      · exact Or.inl ((charsLE_cons_iff a b as bs).mpr (Or.inr ⟨h, ih⟩))
      · exact Or.inr ((charsLE_cons_iff b a bs as).mpr (Or.inr ⟨h.symm, ih⟩))
    · exact Or.inr ((charsLE_cons_iff b a bs as).mpr (Or.inl h))

theorem charsLE_trans : ∀ {x y z : List Char},
    charsLE x y = true → charsLE y z = true → charsLE x z = true
  | [], _, _, _, _ => rfl
  | _ :: _, [], _, h, _ => by simp [charsLE] at h
  | _ :: _, _ :: _, [], _, h => by simp [charsLE] at h
  | a :: as, b :: bs, c :: cs, h, h' => by
    rw [charsLE_cons_iff] at h h' ⊢
    rcases h with h | ⟨rfl, h⟩
    · rcases h' with h' | ⟨rfl, h'⟩
      · exact Or.inl (lt_trans h h')
      · exact Or.inl h
    · rcases h' with h' | ⟨rfl, h'⟩
      · exact Or.inl h'
      · exact Or.inr ⟨rfl, charsLE_trans h h'⟩

theorem charsLT_asymm : ∀ {x y : List Char},
    charsLT x y = true → charsLT y x = true → False
  | [], _ :: _, _, h => by simp [charsLT] at h
  | [], [], h, _ => by simp [charsLT] at h
  | _ :: _, [], h, _ => by simp [charsLT] at h
  | a :: as, b :: bs, h, h' => by
    rw [charsLT_cons_iff] at h h'
    rcases h with h | ⟨rfl, h⟩
    · rcases h' with h' | ⟨e, h'⟩
      · exact absurd h' (not_lt_of_lt h)
      · exact absurd (e ▸ h) (lt_irrefl _)
    · rcases h' with h' | ⟨e, h'⟩
      · exact absurd h' (lt_irrefl _)
      · exact charsLT_asymm h h'

theorem charsLT_of_charsLE_of_ne : ∀ {x y : List Char},
    charsLE x y = true → x ≠ y → charsLT x y = true
  | [], [], _, hne => absurd rfl hne
  | [], _ :: _, _, _ => rfl
  | _ :: _, [], h, _ => by simp [charsLE] at h
  | a :: as, b :: bs, h, hne => by
    rw [charsLE_cons_iff] at h
    rw [charsLT_cons_iff]
    rcases h with h | ⟨rfl, h⟩
    · exact Or.inl h
    · refine Or.inr ⟨rfl, charsLT_of_charsLE_of_ne h ?_⟩
      intro e
      exact hne (by rw [e])

/-- The sort comparator of `configureCustomTags`: Go sorts with the less
function `tags[i].Tag < tags[j].Tag`; its output is non-decreasing in the
tag name, i.e. sorted by this relation. -/
def tagOrder (a b : CustomTag) : Prop := charsLE a.tag.toList b.tag.toList = true

instance : DecidableRel tagOrder := fun a b => by
  unfold tagOrder; infer_instance

instance : IsTotal CustomTag tagOrder :=
  ⟨fun a b => charsLE_total a.tag.toList b.tag.toList⟩

instance : IsTrans CustomTag tagOrder :=
  ⟨fun _ _ _ h h' => charsLE_trans h h'⟩

/-- `configureCustomTags`: optionally prepends the built-in tags (gated by
the process-wide `features.EnableIstioTags`, passed explicitly), then
appends either the directive tags (when non-empty) or the legacy proxy
tags, and sorts the result by tag name. -/
def configureCustomTags (hcmTracing : HCMTracing) (enableIstioTags : Bool)
    (providerTags : List (String × TelemetryTagType)) (proxyCfg : ProxyConfig) : HCMTracing :=
  let tags : List CustomTag := if enableIstioTags then defaultTags else []
  let tags := tags ++
    (if providerTags = [] then
      buildCustomTagsFromProxyConfig proxyCfg.getCustomTags
     else
      buildCustomTagsFromProvider providerTags)
  { hcmTracing with customTags := List.insertionSort tagOrder tags }

/-- `allContexts`: the four supported trace-context formats, in source order. -/
def allContexts : List OCTraceContext :=
  [.b3, .cloudTraceContext, .grpcTraceBin, .traceContext]

/-- The switch body of `convert`, mapping one mesh-config context to the
output enum (the enum is closed, so every case appends exactly one entry). -/
def convertTraceContext : MeshTraceContext → OCTraceContext
  | .b3 => .b3
  | .cloudTraceContext => .cloudTraceContext
  | .grpcBin => .grpcTraceBin
  | .w3cTraceContext => .traceContext

/-- `convert`: an empty configured context list yields all four supported
formats; otherwise each entry is converted in order. -/
def convert (ctxs : List MeshTraceContext) : List OCTraceContext :=
  if ctxs = [] then allContexts
  else ctxs.map convertTraceContext

/-- Kind-specific parameters of `meshconfig.MeshConfig_ExtensionProvider`:
the `Provider` oneof. `other` stands for any variant outside the five kinds
this file dispatches on (e.g. a Prometheus metrics provider), which fall
through the type-switch in `configureFromProviderConfig`. -/
inductive ExtensionProviderKind where
  | zipkin (service : String) (port : Nat) (maxTagLength : Nat)
  | datadog (service : String) (port : Nat) (maxTagLength : Nat)
  | lightstep (service : String) (port : Nat) (maxTagLength : Nat) (accessToken : String)
  | opencensus (service : String) (port : Nat) (maxTagLength : Nat)
      (context : List MeshTraceContext)
  | stackdriver (maxTagLength : Nat) (debug : Bool)
      (maxNumberOfAnnotations maxNumberOfAttributes maxNumberOfMessageEvents : Option Int)
  | other
deriving DecidableEq, Repr

/-- `meshconfig.MeshConfig_ExtensionProvider`: a named provider definition. -/
structure ExtensionProvider where
  name : String
  provider : ExtensionProviderKind
deriving DecidableEq, Repr

/-- `model.NodeMetadata` fields read by this core: the platform-metadata map
is consulted at the two distinct keys `platform.GCPProject` and
`platform.GCPProjectNumber` (modelled as the two optional fields), and
`StsPort` is the raw string from proxy metadata ("" = absent). -/
structure NodeMetadata where
  gcpProject : Option String := none
  gcpProjectNumber : Option String := none
  stsPort : String := ""
deriving DecidableEq, Repr

/-- `strconv.Atoi`: parses an optionally signed base-10 integer that must
fit in a 64-bit `int`; `none` models a non-nil error (syntax or range). -/
def goAtoi (s : String) : Option Int :=
  match s.toList with
  | [] => none
  | c :: rest =>
    let (neg, digits) :=
      if c = '-' then (true, rest)
      else if c = '+' then (false, rest)
      else (false, c :: rest)
    if digits = [] ∨ ¬ digits.all Char.isDigit then none
    else
      let n : Nat := digits.foldl (fun a d => a * 10 + (d.toNat - 48)) 0
      let v : Int := if neg then -(n : Int) else (n : Int)
      if v < -(2 ^ 63) ∨ v > 2 ^ 63 - 1 then none else some v

/-- The endpoint-resolver collaborator `clusterLookupFn`
(`extensionproviders.LookupCluster`): logical service + port to cluster id;
`none` models a lookup error, treated by the builders as
"endpoint unavailable". -/
def ClusterLookup : Type := String → Nat → Option String

/-- `buildHCMTracing`: resolves the service to a cluster, runs the
payload generator on the cluster id, and assembles the provider block;
a nonzero max tag length is carried over. -/
def buildHCMTracing (lookup : ClusterLookup) (provider svc : String)
    (port maxTagLen : Nat) (anyFn : String → Option TypedConfig) : Option HCMTracing :=
  match lookup svc port with
  | none => none
  | some cluster =>
    match anyFn cluster with
    | none => none
    | some a =>
      some { provider := some { name := provider, typedConfig := a },
             maxPathTagLength := if maxTagLen ≠ 0 then some maxTagLen else none }

/-- `buildHCMTracingOpenCensus`: like `buildHCMTracing` but without
endpoint resolution (the payload generator takes no cluster). -/
def buildHCMTracingOpenCensus (provider : String) (maxTagLen : Nat)
    (anyFn : Option TypedConfig) : Option HCMTracing :=
  match anyFn with
  | none => none
  | some a =>
    some { provider := some { name := provider, typedConfig := a },
           maxPathTagLength := if maxTagLen ≠ 0 then some maxTagLen else none }

/-- `zipkinConfigGen`: fixed v2 JSON-over-HTTP collector payload. -/
def zipkinConfigGen (cluster : String) : Option TypedConfig :=
  some (.zipkin
    { collectorCluster := cluster,
      collectorEndpoint := "/api/v2/spans",
      collectorEndpointVersion := .httpJson,
      traceId128bit := true,
      sharedSpanContext := false })

/-- `datadogConfigGen`: payload carries only the resolved cluster. -/
def datadogConfigGen (cluster : String) : Option TypedConfig :=
  some (.datadog { collectorCluster := cluster })

/-- The Stackdriver payload closure inside `configureFromProviderConfig`:
resolves the cloud project (key `project`, then `project-number`), fills the
OpenCensus-compatible exporter config with all four context formats and
200-default trace limits, optionally wires the STS gRPC service when an STS
port string is present (failing on a non-integer or non-positive port), and
finally applies the individual trace-limit overrides. -/
def stackdriverPayload (meta : NodeMetadata) (debug : Bool)
    (maxAnn maxAttr maxEvt : Option Int) : Option TypedConfig :=
  let proj? :=
    match meta.gcpProject with
    | some p => some p
    | none => meta.gcpProjectNumber
  match proj? with
  | none => none
  | some proj =>
    let sd : OpenCensusConfig :=
      { stackdriverExporterEnabled := true,
        stackdriverProjectId := proj,
        incomingTraceContext := allContexts,
        outgoingTraceContext := allContexts,
        stdoutExporterEnabled := debug,
        traceConfig := some
          { maxNumberOfAnnotations := 200,
            maxNumberOfAttributes := 200,
            maxNumberOfMessageEvents := 200 } }
    let sd? : Option OpenCensusConfig :=
      if meta.stsPort ≠ "" then
        match goAtoi meta.stsPort with
        | none => none
        | some stsPort =>
          if stsPort < 1 then none
          else
            let grpc : GrpcService :=
              { initialMetadataUserProject := proj,
                targetUri := "cloudtrace.googleapis.com",
                stsService :=
                  { tokenExchangeServiceUri :=
                      "http://localhost:" ++ toString stsPort ++ "/token",
                    subjectTokenPath := "/var/run/secrets/tokens/istio-token",
                    subjectTokenType := "urn:ietf:params:oauth:token-type:jwt",
                    scope := "https://www.googleapis.com/auth/cloud-platform" } }
            some { sd with stackdriverGrpcService := some grpc }
      else some sd
    match sd? with
    | none => none
    | some sd =>
      let tc := sd.traceConfig.getD
        { maxNumberOfAnnotations := 200, maxNumberOfAttributes := 200,
          maxNumberOfMessageEvents := 200 }
      let tc := match maxAnn with
        | some v => { tc with maxNumberOfAnnotations := v }
        | none => tc
      let tc := match maxAttr with
        | some v => { tc with maxNumberOfAttributes := v }
        | none => tc
      let tc := match maxEvt with
        | some v => { tc with maxNumberOfMessageEvents := v }
        | none => tc
      some (.openCensus { sd with traceConfig := some tc })

/-- `configureFromProviderConfig`: dispatch over the provider kind; a kind
outside the five known tracing kinds falls through the type-switch and
returns an empty tracing config with no error. -/
def configureFromProviderConfig (lookup : ClusterLookup) (meta : NodeMetadata)
    (providerCfg : ExtensionProvider) : Option HCMTracing :=
  match providerCfg.provider with
  | .zipkin svc port maxTagLen =>
    buildHCMTracing lookup providerCfg.name svc port maxTagLen zipkinConfigGen
  | .datadog svc port maxTagLen =>
    buildHCMTracing lookup providerCfg.name svc port maxTagLen datadogConfigGen
  | .lightstep svc port maxTagLen accessToken =>
    buildHCMTracing lookup providerCfg.name svc port maxTagLen
      (fun clusterName =>
        some (.lightstep { collectorCluster := clusterName, accessTokenFile := accessToken }))
  | .opencensus svc port maxTagLen ctx =>
    buildHCMTracingOpenCensus providerCfg.name maxTagLen
      (some (.openCensus
        { ocagentAddress := svc ++ ":" ++ toString port,
          ocagentExporterEnabled := true,
          incomingTraceContext := convert ctx,
          outgoingTraceContext := convert ctx }))
  | .stackdriver maxTagLen debug maxAnn maxAttr maxEvt =>
    buildHCMTracingOpenCensus providerCfg.name maxTagLen
      (stackdriverPayload meta debug maxAnn maxAttr maxEvt)
  | .other => some {}

/-- Reference to a provider inside a telemetry tracing spec
(`telemetrypb.ProviderRef`). -/
structure ProviderRef where
  name : String
deriving DecidableEq, Repr

/-- One tracing spec of the telemetry directive (`telemetrypb.Tracing`).
The custom-tag map is an association list, see the modelling conventions. -/
structure TracingSpec where
  disableSpanReporting : Bool := false
  providers : List ProviderRef := []
  randomSamplingPercentage : ℚ := 0
  customTags : List (String × TelemetryTagType) := []
deriving DecidableEq, Repr

/-- The effective telemetry directive (`telemetrypb.Telemetry`): an ordered
list of tracing specs (only the first is honoured). -/
structure Telemetry where
  tracing : List TracingSpec := []
deriving DecidableEq, Repr

/-- `spec.GetTracing()` nil-safe accessor on an optional directive. -/
def getTracing : Option Telemetry → List TracingSpec
  | none => []
  | some s => s.tracing

/-- `meshconfig.MeshConfig` fields read by this core: `EnableTracing`,
`GetDefaultProviders().GetTracing()` (flattened to a string, "" = unset)
and `ExtensionProviders`. -/
structure MeshConfig where
  enableTracing : Bool := false
  defaultProvidersTracing : String := ""
  extensionProviders : List ExtensionProvider := []
deriving DecidableEq, Repr

/-- `strings.EqualFold` on the provider names, modelled as equality of
the per-character lowercase foldings (simple case folding). -/
def equalFold (s t : String) : Bool :=
  s.toList.map Char.toLower == t.toList.map Char.toLower

/-- The provider-scan loop of `configureTracingFromSpec` (lines 87-99):
walk `meshCfg.ExtensionProviders` in order; on a case-insensitive name
match, run the builder; on builder error log-and-continue, on success stop.
`none` models `providerConfigured == false` after the loop. -/
def findTracingProvider (lookup : ClusterLookup) (meta : NodeMetadata)
    (providerName : String) : List ExtensionProvider → Option HCMTracing
  | [] => none
  | p :: rest =>
    if equalFold p.name providerName then
      match configureFromProviderConfig lookup meta p with
      | some tcfg => some tcfg
      | none => findTracingProvider lookup meta providerName rest
    else findTracingProvider lookup meta providerName rest

/-- `configureTracingFromSpec`: the resolution orchestrator. The returned
`Option HCMTracing` is the final value of `hcm.Tracing` (`none` = field left
nil, i.e. no tracing block emitted). The globals `pilotTraceSamplingEnv`
and `features.EnableIstioTags` and the collaborator `clusterLookupFn` are
explicit parameters; `proxyCfg` stands for
`opts.proxy.Metadata.ProxyConfigOrDefault(opts.push.Mesh.DefaultConfig)`
and `meta` for `opts.proxy.Metadata`. -/
def configureTracingFromSpec (lookup : ClusterLookup)
    (pilotTraceSamplingEnv : ℚ) (enableIstioTags : Bool)
    (spec : Option Telemetry) (meshCfg : MeshConfig) (proxyCfg : ProxyConfig)
    (meta : NodeMetadata) : Option HCMTracing :=
  match getTracing spec with
  | [] =>
    if ¬ meshCfg.enableTracing then none
    else
      let t : HCMTracing := {}
      let t := configureSampling t 0 pilotTraceSamplingEnv proxyCfg
      let t := configureCustomTags t enableIstioTags [] proxyCfg
      let t :=
        if proxyCfg.getMaxPathTagLength ≠ 0 then
          { t with maxPathTagLength := some proxyCfg.getMaxPathTagLength }
        else t
      some t
  | tracingCfg :: _ =>
    if tracingCfg.disableSpanReporting then none
    else
      let providerName :=
        match tracingCfg.providers with
        | [] => meshCfg.defaultProvidersTracing
        | ref :: _ => ref.name
      let t : HCMTracing :=
        match findTracingProvider lookup meta providerName meshCfg.extensionProviders with
        | some tcfg => tcfg
        | none => {}
      let t := configureSampling t tracingCfg.randomSamplingPercentage
        pilotTraceSamplingEnv proxyCfg
      let t := configureCustomTags t enableIstioTags tracingCfg.customTags proxyCfg
      let t :=
        if t.maxPathTagLength = none ∧ proxyCfg.getMaxPathTagLength ≠ 0 then
          { t with maxPathTagLength := some proxyCfg.getMaxPathTagLength }
        else t
      some t

/-! ## Helper lemmas -/

theorem configureSampling_clientSampling (t : HCMTracing) (pp env : ℚ) (cfg : ProxyConfig) :
    (configureSampling t pp env cfg).clientSampling = some 100 := by
  unfold configureSampling; split <;> rfl

theorem configureSampling_overallSampling (t : HCMTracing) (pp env : ℚ) (cfg : ProxyConfig) :
    (configureSampling t pp env cfg).overallSampling = some 100 := by
  unfold configureSampling; split <;> rfl

theorem configureSampling_randomSampling (t : HCMTracing) (pp env : ℚ) (cfg : ProxyConfig) :
    (configureSampling t pp env cfg).randomSampling =
      some (if pp ≠ 0 then pp else fallbackSamplingValue env cfg) := by
  unfold configureSampling; split <;> simp_all

theorem configureSampling_provider (t : HCMTracing) (pp env : ℚ) (cfg : ProxyConfig) :
    (configureSampling t pp env cfg).provider = t.provider := by
  unfold configureSampling; split <;> rfl

theorem configureSampling_maxPathTagLength (t : HCMTracing) (pp env : ℚ) (cfg : ProxyConfig) :
    (configureSampling t pp env cfg).maxPathTagLength = t.maxPathTagLength := by
  unfold configureSampling; split <;> rfl

theorem configureCustomTags_clientSampling (t : HCMTracing) (e : Bool)
    (ptags : List (String × TelemetryTagType)) (cfg : ProxyConfig) :
    (configureCustomTags t e ptags cfg).clientSampling = t.clientSampling := rfl

theorem configureCustomTags_overallSampling (t : HCMTracing) (e : Bool)
    (ptags : List (String × TelemetryTagType)) (cfg : ProxyConfig) :
    (configureCustomTags t e ptags cfg).overallSampling = t.overallSampling := rfl

theorem configureCustomTags_randomSampling (t : HCMTracing) (e : Bool)
    (ptags : List (String × TelemetryTagType)) (cfg : ProxyConfig) :
    (configureCustomTags t e ptags cfg).randomSampling = t.randomSampling := rfl

theorem configureCustomTags_provider (t : HCMTracing) (e : Bool)
    (ptags : List (String × TelemetryTagType)) (cfg : ProxyConfig) :
    (configureCustomTags t e ptags cfg).provider = t.provider := rfl

theorem configureCustomTags_maxPathTagLength (t : HCMTracing) (e : Bool)
    (ptags : List (String × TelemetryTagType)) (cfg : ProxyConfig) :
    (configureCustomTags t e ptags cfg).maxPathTagLength = t.maxPathTagLength := rfl

/-- The pre-sort tag list assembled by `configureCustomTags`. -/
def tagsToSort (e : Bool) (ptags : List (String × TelemetryTagType))
    (pcfg : ProxyConfig) : List CustomTag :=
  (if e then defaultTags else []) ++
    (if ptags = [] then buildCustomTagsFromProxyConfig pcfg.getCustomTags
     else buildCustomTagsFromProvider ptags)

theorem configureCustomTags_customTags (t : HCMTracing) (e : Bool)
    (ptags : List (String × TelemetryTagType)) (cfg : ProxyConfig) :
    (configureCustomTags t e ptags cfg).customTags =
      List.insertionSort tagOrder (tagsToSort e ptags cfg) := rfl

/-- `fallbackSamplingValue` rephrased through the nil-safe accessor. -/
theorem fallbackSamplingValue_eq (env : ℚ) (cfg : ProxyConfig) :
    fallbackSamplingValue env cfg =
      if cfg.getSampling ≠ 0 then
        (if cfg.getSampling > 100 then 1 else cfg.getSampling)
      else env := by
  unfold fallbackSamplingValue ProxyConfig.getSampling
  cases cfg.tracing <;> simp

theorem getPilotRandomSamplingEnv_mem (raw : ℚ) :
    0 ≤ getPilotRandomSamplingEnv raw ∧ getPilotRandomSamplingEnv raw ≤ 100 := by
  unfold getPilotRandomSamplingEnv
  split
  · norm_num
  · next h =>
    push_neg at h
    exact ⟨h.1, h.2⟩

/-! ## Claims -/

/-- Claim C2: for every directive whose first tracing spec has
`disableSpanReporting = true`, resolution returns an empty result — no
provider, no custom tags, no sampling fields — short-circuiting before any
provider lookup or fallback logic (`hcm.Tracing` is left nil). -/
theorem C2_disable_span_reporting (lookup : ClusterLookup) (env : ℚ) (tags : Bool)
    (spec : Telemetry) (meshCfg : MeshConfig) (proxyCfg : ProxyConfig)
    (meta : NodeMetadata) (cfg : TracingSpec) (rest : List TracingSpec)
    (hspec : spec.tracing = cfg :: rest) (hd : cfg.disableSpanReporting = true) :
    configureTracingFromSpec lookup env tags (some spec) meshCfg proxyCfg meta = none := by
  unfold configureTracingFromSpec
  rw [show getTracing (some spec) = cfg :: rest from hspec]
  simp [hd]

theorem C2_witness :
    configureTracingFromSpec (fun _ _ => none) 1 true
      (some { tracing := [{ disableSpanReporting := true }] }) {} {} {} = none :=
  C2_disable_span_reporting (fun _ _ => none) 1 true
    { tracing := [{ disableSpanReporting := true }] } {} {} {}
    { disableSpanReporting := true } [] rfl rfl

/-- Claim C3: the random-sampling percentage obeys the precedence chain — a
nonzero provider-level percentage is used verbatim; exactly 0 is treated as
unset and falls through to the legacy chain, where the process-wide default
(forced to 1.0 when outside [0,100]) is overridden by the proxy config's
`tracing.sampling` when nonzero, with a legacy value exceeding 100 forced
to 1.0. -/
theorem C3_sampling_precedence (t : HCMTracing) (pp raw : ℚ) (proxyCfg : ProxyConfig) :
    (configureSampling t pp (getPilotRandomSamplingEnv raw) proxyCfg).randomSampling =
      some (if pp ≠ 0 then pp
            else if proxyCfg.getSampling ≠ 0 then
              (if proxyCfg.getSampling > 100 then 1 else proxyCfg.getSampling)
            else if raw < 0 ∨ raw > 100 then 1 else raw) := by
  rw [configureSampling_randomSampling, fallbackSamplingValue_eq]
  unfold getPilotRandomSamplingEnv
  rfl

/-- Claim C6: a non-empty directive custom-tag map makes the legacy proxy-config
tags irrelevant — the resolved tags are identical for any two legacy
configurations, so no legacy tag can appear in (or influence) the output. -/
theorem C6_directive_tags_exclusive (t : HCMTracing) (e : Bool)
    (ptags : List (String × TelemetryTagType)) (pcfg pcfg' : ProxyConfig)
    (h : ptags ≠ []) :
    configureCustomTags t e ptags pcfg = configureCustomTags t e ptags pcfg' := by
  unfold configureCustomTags
  simp [h]

theorem C6_witness :
    configureCustomTags {} true [("env", TelemetryTagType.literal "v")]
        { tracing := some { customTags := [("legacy", MeshTagType.literal "L")] } } =
      configureCustomTags {} true [("env", TelemetryTagType.literal "v")] {} :=
  C6_directive_tags_exclusive {} true [("env", TelemetryTagType.literal "v")]
    { tracing := some { customTags := [("legacy", MeshTagType.literal "L")] } } {}
    (by simp)

/-- Claim C7: whenever resolution emits a tracing block at all, its
client-sampling and overall-sampling percentages are both exactly 100,
regardless of provider, directive or legacy configuration. -/
theorem C7_fixed_client_overall (lookup : ClusterLookup) (env : ℚ) (tags : Bool)
    (spec : Option Telemetry) (meshCfg : MeshConfig) (proxyCfg : ProxyConfig)
    (meta : NodeMetadata) (t : HCMTracing)
    (h : configureTracingFromSpec lookup env tags spec meshCfg proxyCfg meta = some t) :
    t.clientSampling = some 100 ∧ t.overallSampling = some 100 := by
  unfold configureTracingFromSpec at h
  split at h
  · split at h
    · exact absurd h (by simp)
    · rw [Option.some_inj] at h
      subst h
      constructor
      · split <;>
          simp [configureCustomTags_clientSampling, configureSampling_clientSampling]
      · split <;>
          simp [configureCustomTags_overallSampling, configureSampling_overallSampling]
  · split at h
    · exact absurd h (by simp)
    · rw [Option.some_inj] at h
      subst h
      constructor
      · split <;>
          simp [configureCustomTags_clientSampling, configureSampling_clientSampling]
      · split <;>
          simp [configureCustomTags_overallSampling, configureSampling_overallSampling]

theorem C7_witness :
    ∃ t, configureTracingFromSpec (fun _ _ => none) 1 false none
        { enableTracing := true } {} {} = some t ∧
      t.clientSampling = some 100 ∧ t.overallSampling = some 100 := by
  refine ⟨_, rfl, ?_⟩
  exact C7_fixed_client_overall (fun _ _ => none) 1 false none
    { enableTracing := true } {} {} _ rfl

/-- Claim C1: resolution never fails as a whole. A builder failure on a matched
extension provider is skipped and the scan continues over the remaining
providers; when no match succeeds, resolution still returns a config carrying
the resolved sampling values and custom tags but no provider; no builder
error reaches the caller (the orchestrator is total on non-short-circuit
inputs). -/
theorem C1_resolution_never_fails :
    (∀ (lookup : ClusterLookup) (meta : NodeMetadata) (providerName : String)
        (p : ExtensionProvider) (rest : List ExtensionProvider),
      equalFold p.name providerName = true →
      configureFromProviderConfig lookup meta p = none →
      findTracingProvider lookup meta providerName (p :: rest) =
        findTracingProvider lookup meta providerName rest) ∧
    (∀ (lookup : ClusterLookup) (env : ℚ) (tags : Bool) (spec : Telemetry)
        (meshCfg : MeshConfig) (proxyCfg : ProxyConfig) (meta : NodeMetadata)
        (cfg : TracingSpec) (rest : List TracingSpec),
      spec.tracing = cfg :: rest →
      cfg.disableSpanReporting = false →
      ∃ t, configureTracingFromSpec lookup env tags (some spec) meshCfg proxyCfg meta = some t ∧
        (findTracingProvider lookup meta
            (match cfg.providers with
             | [] => meshCfg.defaultProvidersTracing
             | ref :: _ => ref.name) meshCfg.extensionProviders = none →
          t.provider = none ∧
          t.randomSampling = some (if cfg.randomSamplingPercentage ≠ 0 then
            cfg.randomSamplingPercentage else fallbackSamplingValue env proxyCfg) ∧
          t.customTags = List.insertionSort tagOrder (tagsToSort tags cfg.customTags proxyCfg))) := by
  constructor
  · intro lookup meta providerName p rest hmatch hfail
    simp only [findTracingProvider, hmatch, hfail, if_true]
  · intro lookup env tags spec meshCfg proxyCfg meta cfg rest hspec hd
    unfold configureTracingFromSpec
    rw [show getTracing (some spec) = cfg :: rest from hspec]
    simp only [hd, Bool.false_eq_true, if_false]
    refine ⟨_, rfl, ?_⟩
    intro hfind
    rw [hfind]
    refine ⟨?_, ?_, ?_⟩
    · split <;>
        simp [configureCustomTags_provider, configureSampling_provider]
    · split <;>
        simp [configureCustomTags_randomSampling, configureSampling_randomSampling]
    · split <;>
        simp [configureCustomTags_customTags]

theorem C1_witness :
    (findTracingProvider (fun _ _ => none) {} "zipkin"
        [⟨"Zipkin", .zipkin "zipkin.istio" 9411 0⟩] =
      findTracingProvider (fun _ _ => none) {} "zipkin" []) ∧
    (∃ t, configureTracingFromSpec (fun _ _ => none) 1 false
        (some { tracing := [{ providers := [⟨"zipkin"⟩] }] })
        { extensionProviders := [⟨"Zipkin", .zipkin "zipkin.istio" 9411 0⟩] } {} {} = some t ∧
      t.provider = none) := by
  have h := C1_resolution_never_fails
  constructor
  · exact h.1 (fun _ _ => none) {} "zipkin" ⟨"Zipkin", .zipkin "zipkin.istio" 9411 0⟩ []
      (by decide) (by simp [configureFromProviderConfig, buildHCMTracing])
  · obtain ⟨t, ht, himp⟩ := h.2 (fun _ _ => none) 1 false
      { tracing := [{ providers := [⟨"zipkin"⟩] }] }
      { extensionProviders := [⟨"Zipkin", .zipkin "zipkin.istio" 9411 0⟩] } {} {}
      { providers := [⟨"zipkin"⟩] } [] rfl rfl
    refine ⟨t, ht, ?_⟩
    exact (himp (by simp [findTracingProvider, equalFold, configureFromProviderConfig,
      buildHCMTracing])).1

/-- Claim C10: a first case-insensitively matching extension provider whose kind
is outside the five known tracing kinds builds successfully into an empty
tracing block (no provider payload, no provider-supplied max-path-tag
length) and is treated as a configured provider, so the scan stops at that
entry regardless of any remaining providers. -/
theorem C10_unknown_kind_stops_scan (lookup : ClusterLookup) (meta : NodeMetadata)
    (pname providerName : String) (rest : List ExtensionProvider)
    (h : equalFold pname providerName = true) :
    ∃ t, configureFromProviderConfig lookup meta ⟨pname, .other⟩ = some t ∧
      t.provider = none ∧ t.maxPathTagLength = none ∧
      findTracingProvider lookup meta providerName (⟨pname, .other⟩ :: rest) = some t := by
  refine ⟨{}, rfl, rfl, rfl, ?_⟩
  unfold findTracingProvider
  rw [h]
  simp [configureFromProviderConfig]

theorem C10_witness :
    ∃ t, configureFromProviderConfig (fun _ _ => none) {} ⟨"custom", .other⟩ = some t ∧
      t.provider = none ∧ t.maxPathTagLength = none ∧
      findTracingProvider (fun _ _ => none) {} "CUSTOM"
        [⟨"custom", .other⟩, ⟨"CUSTOM", .zipkin "svc" 1 2⟩] = some t :=
  C10_unknown_kind_stops_scan (fun _ _ => none) {} "custom" "CUSTOM"
    [⟨"CUSTOM", .zipkin "svc" 1 2⟩] (by decide)

/-- Claim C8: an OpenCensus provider with an empty configured trace-context list
builds a payload whose incoming and outgoing context lists are both the
full set of four supported formats; a non-empty list is mapped entrywise to
the corresponding output formats. -/
theorem C8_opencensus_trace_contexts :
    (allContexts = [.b3, .cloudTraceContext, .grpcTraceBin, .traceContext]) ∧
    (∀ (lookup : ClusterLookup) (meta : NodeMetadata) (name svc : String)
        (port mtl : Nat) (ctxs : List MeshTraceContext),
      ∃ t oc, configureFromProviderConfig lookup meta ⟨name, .opencensus svc port mtl ctxs⟩ =
          some t ∧
        t.provider = some ⟨name, .openCensus oc⟩ ∧
        oc.incomingTraceContext = convert ctxs ∧
        oc.outgoingTraceContext = convert ctxs) ∧
    (∀ ctxs : List MeshTraceContext, ctxs = [] → convert ctxs = allContexts) ∧
    (∀ ctxs : List MeshTraceContext, ctxs ≠ [] →
      convert ctxs = ctxs.map convertTraceContext) := by
  refine ⟨rfl, ?_, ?_, ?_⟩
  · intro lookup meta name svc port mtl ctxs
    exact ⟨_, _, rfl, rfl, rfl, rfl⟩
  · intro ctxs h
    simp [convert, h]
  · intro ctxs h
    simp [convert, h]

theorem C8_witness :
    (∃ t oc, configureFromProviderConfig (fun _ _ => none) {}
        ⟨"oc", .opencensus "collector" 4317 0 []⟩ = some t ∧
      t.provider = some ⟨"oc", .openCensus oc⟩ ∧
      oc.incomingTraceContext = convert [] ∧
      oc.outgoingTraceContext = convert []) ∧
    convert [] = allContexts ∧
    convert [MeshTraceContext.grpcBin] = [MeshTraceContext.grpcBin].map convertTraceContext := by
  have h := C8_opencensus_trace_contexts
  exact ⟨h.2.1 (fun _ _ => none) {} "oc" "collector" 4317 0 [],
    h.2.2.1 [] rfl, h.2.2.2 [MeshTraceContext.grpcBin] (by simp)⟩

theorem buildHCMTracingOpenCensus_isSome (p : String) (mtl : Nat) (anyFn : Option TypedConfig) :
    (buildHCMTracingOpenCensus p mtl anyFn).isSome = anyFn.isSome := by
  unfold buildHCMTracingOpenCensus; cases anyFn <;> simp

theorem stackdriverPayload_isSome (meta : NodeMetadata) (debug : Bool) (ma mb mc : Option Int) :
    (stackdriverPayload meta debug ma mb mc).isSome ↔
      ((meta.gcpProject ≠ none ∨ meta.gcpProjectNumber ≠ none) ∧
       (meta.stsPort = "" ∨ ∃ v, goAtoi meta.stsPort = some v ∧ 1 ≤ v)) := by
  unfold stackdriverPayload
  cases hp : meta.gcpProject with
  | none =>
    cases hq : meta.gcpProjectNumber with
    | none => simp
    | some q =>
      simp only []
      by_cases hs : meta.stsPort = ""
      · simp [hs]
      · simp only [hs]
        cases hv : goAtoi meta.stsPort with
        | none => simp [hs, hv]
        | some v =>
          by_cases hlt : v < 1
          · simp [hs, hv, hlt]
          · simp [hs, hv, hlt]
            omega
  | some p =>
    simp only []
    by_cases hs : meta.stsPort = ""
    · simp [hs]
    · simp only [hs]
      cases hv : goAtoi meta.stsPort with
      | none => simp [hs, hv]
      | some v =>
        by_cases hlt : v < 1
        · simp [hs, hv, hlt]
        · simp [hs, hv, hlt]
          omega

/-- Claim C9: the Stackdriver builder fails exactly when the platform
metadata has neither the project key nor the project-number key, or when an
STS port is present in proxy metadata but does not parse as a positive
integer; on success with a valid port it wires the token-exchange gRPC
service at `http://localhost:{port}/token`. -/
theorem C9_stackdriver_failure (lookup : ClusterLookup) (meta : NodeMetadata)
    (name : String) (mtl : Nat) (debug : Bool) (ma mb mc : Option Int) :
    ((configureFromProviderConfig lookup meta ⟨name, .stackdriver mtl debug ma mb mc⟩).isSome ↔
      ((meta.gcpProject ≠ none ∨ meta.gcpProjectNumber ≠ none) ∧
       (meta.stsPort = "" ∨ ∃ v, goAtoi meta.stsPort = some v ∧ 1 ≤ v))) ∧
    (∀ (t : HCMTracing) (v : Int),
      configureFromProviderConfig lookup meta ⟨name, .stackdriver mtl debug ma mb mc⟩ = some t →
      meta.stsPort ≠ "" → goAtoi meta.stsPort = some v →
      ∃ oc g, t.provider = some ⟨name, .openCensus oc⟩ ∧
        oc.stackdriverGrpcService = some g ∧
        g.stsService.tokenExchangeServiceUri =
          "http://localhost:" ++ toString v ++ "/token") := by
  constructor
  · rw [show configureFromProviderConfig lookup meta ⟨name, .stackdriver mtl debug ma mb mc⟩ =
        buildHCMTracingOpenCensus name mtl (stackdriverPayload meta debug ma mb mc) from rfl,
      buildHCMTracingOpenCensus_isSome]
    exact stackdriverPayload_isSome meta debug ma mb mc
  · intro t v h hs hv
    rw [show configureFromProviderConfig lookup meta ⟨name, .stackdriver mtl debug ma mb mc⟩ =
        buildHCMTracingOpenCensus name mtl (stackdriverPayload meta debug ma mb mc) from rfl] at h
    unfold stackdriverPayload at h
    cases hproj : (match meta.gcpProject with
                   | some p => some p
                   | none => meta.gcpProjectNumber) with
    | none =>
      rw [hproj] at h
      simp [buildHCMTracingOpenCensus] at h
    | some proj =>
      rw [hproj] at h
      simp only [hs, hv, if_true, ite_not] at h
      by_cases hlt : v < 1
      · simp [hlt, buildHCMTracingOpenCensus] at h
      · simp only [hlt, if_false, buildHCMTracingOpenCensus] at h
        rw [Option.some_inj] at h
        subst h
        exact ⟨_, _, rfl, rfl, rfl⟩

theorem C9_witness :
    (configureFromProviderConfig (fun _ _ => none) ⟨some "my-project", none, "15012"⟩
        ⟨"sd", .stackdriver 0 false none none none⟩).isSome ∧
    (∃ t oc g, configureFromProviderConfig (fun _ _ => none) ⟨some "my-project", none, "15012"⟩
        ⟨"sd", .stackdriver 0 false none none none⟩ = some t ∧
      t.provider = some ⟨"sd", .openCensus oc⟩ ∧
      oc.stackdriverGrpcService = some g ∧
      g.stsService.tokenExchangeServiceUri = "http://localhost:15012/token") := by
  have h := C9_stackdriver_failure (fun _ _ => none) ⟨some "my-project", none, "15012"⟩
    "sd" 0 false none none none
  have hsome := h.1.mpr ⟨Or.inl (by simp), Or.inr ⟨15012, by decide, by norm_num⟩⟩
  refine ⟨hsome, ?_⟩
  obtain ⟨t, ht⟩ := Option.isSome_iff_exists.mp hsome
  obtain ⟨oc, g, h1, h2, h3⟩ := h.2 t 15012 ht (by decide) (by decide)
  exact ⟨t, oc, g, ht, h1, h2, by rw [h3]; rfl⟩

/-- Claim C4 (counterexample): the claim "the resolved random-sampling
percentage always lies in [0,100]" fails — a provider-level percentage of
150 is nonzero, so it is used verbatim and the result is 150 > 100. -/
theorem C4_counterexample :
    (configureSampling {} 150 (getPilotRandomSamplingEnv 1) {}).randomSampling = some 150 ∧
    ¬ ((150 : ℚ) ≤ 100) := by
  constructor
  · rfl
  · norm_num

/-- Claim C4 (amended): when the provider-level percentage lies in [0,100]
and the legacy proxy sampling is nonnegative, the resolved random-sampling
percentage lies in [0,100]; the process-wide default is always validated
into [0,100], so it never breaks the bound. -/
theorem C4_sampling_range (t : HCMTracing) (pp raw : ℚ) (proxyCfg : ProxyConfig)
    (h0 : 0 ≤ pp) (h1 : pp ≤ 100) (h2 : 0 ≤ proxyCfg.getSampling) :
    ∃ v, (configureSampling t pp (getPilotRandomSamplingEnv raw) proxyCfg).randomSampling =
        some v ∧ 0 ≤ v ∧ v ≤ 100 := by
  rw [configureSampling_randomSampling, fallbackSamplingValue_eq]
  refine ⟨_, rfl, ?_⟩
  have henv := getPilotRandomSamplingEnv_mem raw
  by_cases hpp : pp = 0
  · simp only [hpp, ne_eq, not_true_eq_false, if_false]
    by_cases hleg : proxyCfg.getSampling = 0
    · simp only [hleg, ne_eq, not_true_eq_false, if_false]
      exact henv
    · simp only [ne_eq, hleg, not_false_eq_true, if_true]
      by_cases hgt : proxyCfg.getSampling > 100
      · simp only [hgt, if_true]
        norm_num
      · simp only [hgt, if_false]
        push_neg at hgt
        exact ⟨h2, hgt⟩
  · simp only [ne_eq, hpp, not_false_eq_true, if_true]
    exact ⟨h0, h1⟩

theorem C4_witness :
    ∃ v, (configureSampling {} 50 (getPilotRandomSamplingEnv 1) {}).randomSampling =
        some v ∧ 0 ≤ v ∧ v ≤ 100 :=
  C4_sampling_range {} 50 1 {} (by norm_num) (by norm_num) (le_of_eq rfl)

/-- The strict tag-name order on output tags ("sorted strictly ascending
by tag name"). -/
def tagLT (a b : CustomTag) : Prop := charsLT a.tag.toList b.tag.toList = true

instance : DecidableRel tagLT := fun a b => by
  unfold tagLT; infer_instance

instance : IsAntisymm CustomTag tagLT :=
  ⟨fun _ _ h h' => (charsLT_asymm h h').elim⟩

/-- Claim C5 (counterexample): the output is not always sorted strictly
ascending by tag name — with built-in tags enabled, a directive tag named
`istio.mesh_id` collides with the built-in tag of the same name, so the
sorted output carries that name twice. -/
theorem C5_counterexample :
    ¬ List.Sorted tagLT
      ((configureCustomTags {} true
        [("istio.mesh_id", TelemetryTagType.literal "x")] {}).customTags) := by
  decide

/-- The entrywise conversion performed by `buildCustomTagsFromProvider`. -/
def convertTelemetryTag : String × TelemetryTagType → CustomTag
  | (tagName, .environment n d) => { tag := tagName, type := .environment n d }
  | (tagName, .header n d) => { tag := tagName, type := .requestHeader n d }
  | (tagName, .literal v) => { tag := tagName, type := .literal v }

/-- The entrywise conversion performed by `buildCustomTagsFromProxyConfig`. -/
def convertMeshTag : String × MeshTagType → CustomTag
  | (tagName, .environment n d) => { tag := tagName, type := .environment n d }
  | (tagName, .header n d) => { tag := tagName, type := .requestHeader n d }
  | (tagName, .literal v) => { tag := tagName, type := .literal v }

theorem buildCustomTagsFromProvider_eq_map (l : List (String × TelemetryTagType)) :
    buildCustomTagsFromProvider l = l.map convertTelemetryTag := by
  induction l with
  | nil => rfl
  | cons e rest ih =>
    obtain ⟨n, ty⟩ := e
    cases ty <;> simp [buildCustomTagsFromProvider, convertTelemetryTag, ih]

theorem buildCustomTagsFromProxyConfig_eq_map (l : List (String × MeshTagType)) :
    buildCustomTagsFromProxyConfig l = l.map convertMeshTag := by
  induction l with
  | nil => rfl
  | cons e rest ih =>
    obtain ⟨n, ty⟩ := e
    cases ty <;> simp [buildCustomTagsFromProxyConfig, convertMeshTag, ih]

theorem tagsToSort_perm (e : Bool) (p₁ p₂ : List (String × TelemetryTagType))
    (c₁ c₂ : ProxyConfig) (hp : p₁.Perm p₂) (hc : c₁.getCustomTags.Perm c₂.getCustomTags) :
    (tagsToSort e p₁ c₁).Perm (tagsToSort e p₂ c₂) := by
  unfold tagsToSort
  refine List.Perm.append_left _ ?_
  by_cases h1 : p₁ = []
  · have h2 : p₂ = [] := by
      subst h1
      exact hp.symm.eq_nil
    rw [if_pos h1, if_pos h2, buildCustomTagsFromProxyConfig_eq_map,
      buildCustomTagsFromProxyConfig_eq_map]
    exact hc.map _
  · have h2 : p₂ ≠ [] := by
      intro h2
      exact h1 ((h2 ▸ hp).eq_nil)
    rw [if_neg h1, if_neg h2, buildCustomTagsFromProvider_eq_map,
      buildCustomTagsFromProvider_eq_map]
    exact hp.map _

theorem sorted_tagLT_of_nodup {l : List CustomTag}
    (hs : List.Sorted tagOrder l) (hn : (l.map CustomTag.tag).Nodup) :
    List.Sorted tagLT l := by
  have hpair : l.Pairwise (fun a b => a.tag ≠ b.tag) := (List.pairwise_map).mp hn
  refine (hs.and hpair).imp (fun h => ?_)
  exact charsLT_of_charsLE_of_ne h.1 (fun e => h.2 (String.toList_inj.mp e))

/-- Claim C5 (amended): the resolved custom-tag sequence is always sorted
non-decreasingly by tag name; and whenever the assembled tag names are
pairwise distinct (no directive/legacy tag reuses a built-in tag name),
it is sorted strictly ascending and is identical across permuted-but-equal
directive and legacy tag maps (deterministic despite map iteration order). -/
theorem C5_sorted_and_deterministic :
    (∀ (t : HCMTracing) (e : Bool) (ptags : List (String × TelemetryTagType))
        (pcfg : ProxyConfig),
      List.Sorted tagOrder ((configureCustomTags t e ptags pcfg).customTags)) ∧
    (∀ (t₁ t₂ : HCMTracing) (e : Bool) (p₁ p₂ : List (String × TelemetryTagType))
        (c₁ c₂ : ProxyConfig),
      p₁.Perm p₂ →
      c₁.getCustomTags.Perm c₂.getCustomTags →
      ((tagsToSort e p₁ c₁).map CustomTag.tag).Nodup →
      (configureCustomTags t₁ e p₁ c₁).customTags =
        (configureCustomTags t₂ e p₂ c₂).customTags ∧
      List.Sorted tagLT ((configureCustomTags t₁ e p₁ c₁).customTags)) := by
  constructor
  · intro t e ptags pcfg
    rw [configureCustomTags_customTags]
    exact List.sorted_insertionSort tagOrder _
  · intro t₁ t₂ e p₁ p₂ c₁ c₂ hp hc hn
    have hperm := tagsToSort_perm e p₁ p₂ c₁ c₂ hp hc
    have hout : (List.insertionSort tagOrder (tagsToSort e p₁ c₁)).Perm
        (List.insertionSort tagOrder (tagsToSort e p₂ c₂)) :=
      ((List.perm_insertionSort tagOrder _).trans hperm).trans
        (List.perm_insertionSort tagOrder _).symm
    have hn₁ : ((List.insertionSort tagOrder (tagsToSort e p₁ c₁)).map CustomTag.tag).Nodup :=
      ((List.perm_insertionSort tagOrder _).map CustomTag.tag).nodup_iff.mpr hn
    have hn₂ : ((List.insertionSort tagOrder (tagsToSort e p₂ c₂)).map CustomTag.tag).Nodup :=
      (hout.map CustomTag.tag).nodup_iff.mp hn₁
    have hstrict₁ := sorted_tagLT_of_nodup (List.sorted_insertionSort tagOrder _) hn₁
    have hstrict₂ := sorted_tagLT_of_nodup (List.sorted_insertionSort tagOrder _) hn₂
    refine ⟨?_, ?_⟩
    · rw [configureCustomTags_customTags, configureCustomTags_customTags]
      exact List.eq_of_perm_of_sorted hout hstrict₁ hstrict₂
    · rw [configureCustomTags_customTags]
      exact hstrict₁

theorem C5_witness :
    (configureCustomTags {} true
        [("zeta", TelemetryTagType.literal "z"), ("alpha", TelemetryTagType.literal "a")]
        {}).customTags =
      (configureCustomTags {} true
        [("alpha", TelemetryTagType.literal "a"), ("zeta", TelemetryTagType.literal "z")]
        {}).customTags ∧
    List.Sorted tagLT ((configureCustomTags {} true
      [("zeta", TelemetryTagType.literal "z"), ("alpha", TelemetryTagType.literal "a")]
      {}).customTags) :=
  C5_sorted_and_deterministic.2 {} {} true
    [("zeta", TelemetryTagType.literal "z"), ("alpha", TelemetryTagType.literal "a")]
    [("alpha", TelemetryTagType.literal "a"), ("zeta", TelemetryTagType.literal "z")]
    {} {} (List.Perm.swap _ _ _) (List.Perm.refl _) (by decide)

end IstioTracing
